import Mathlib

/-
Verification of the gemini-writer agent loop.

Shallow embedding of src/kimi-writer.py (the main agent loop) and
src/utils.py (token estimation, tool registry).  Machine strings are Lean
Strings; the Gemini `Content`/`Part` types are embedded as inductive data;
external effects (the model backend, the summarization call, user input)
are explicit parameters so that each loop iteration is a pure function of
its inputs.
-/

namespace GeminiWriter

/-- Constants from src/kimi-writer.py lines 30-34. -/
def MAX_ITERATIONS : Nat := 300

/-- Hard context-window limit (src/kimi-writer.py line 31). -/
def TOKEN_LIMIT : Nat := 1000000

/-- Compression trigger threshold (src/kimi-writer.py line 32). -/
def COMPRESSION_THRESHOLD : Nat := 900000

/-- A part of a Gemini `Content`: exactly one of text, function call, or
function response is set (mirrors google.genai types.Part as used by the
code; argument values are carried as opaque strings). -/
inductive Part where
  | text (s : String)
  | functionCall (name : String) (args : List (String × String))
  | functionResponse (name : String) (result : String)
deriving DecidableEq, Repr

/-- A conversation turn: google.genai types.Content with a role and parts. -/
structure Content where
  role : String
  parts : List Part
deriving DecidableEq, Repr

/-- A parsed function call, as collected into `function_calls_list`
(src/kimi-writer.py lines 215-220). -/
structure FunctionCall where
  name : String
  args : List (String × String)
deriving DecidableEq, Repr

/-- Character count contributed by one part in the fallback estimator:
only parts with truthy `.text` are counted (src/utils.py lines 31-34). -/
def partTextChars : Part → Nat
  | Part.text s => s.length
  | _ => 0

/-- Total characters summed by the fallback path of `estimate_token_count`
(src/utils.py lines 30-34). -/
def fallbackCharCount (contents : List Content) : Nat :=
  (contents.map (fun c => (c.parts.map partTextChars).sum)).sum

/-- src/utils.py `estimate_token_count`: the primary backend call is an
input (`some n` when it succeeds with count n, `none` when it fails for any
reason); on failure the fallback divides the text character count by 4,
rounding down (src/utils.py lines 22-36). -/
def estimate_token_count (primary : Option Nat) (contents : List Content) : Nat :=
  match primary with
  | some n => n
  | none => fallbackCharCount contents / 4

/-- Character count of a segment according to the SPEC's words for the
fallback path: "sum the character length of every Text/ToolResult segment"
(spec section 4.2).  Kept separate from `partTextChars` (the source code)
so the two can be compared. -/
def specSegmentChars : Part → Nat
  | Part.text s => s.length
  | Part.functionResponse _ r => r.length
  | Part.functionCall _ _ => 0

/-- The fallback estimate as the SPEC describes it (Text and ToolResult
segments both counted, divided by 4 rounding down). -/
def estimateSpecFallback (contents : List Content) : Nat :=
  (contents.map (fun c => (c.parts.map specSegmentChars).sum)).sum / 4

/-- Character count of a Text part, `none` for other parts; used to state
what the source fallback actually sums. -/
def textCharsOf : Part → Option Nat
  | Part.text s => some s.length
  | _ => none

/-- The single-quote character, used in the unknown-tool message. -/
def squote : String := String.mk [Char.ofNat 39]

/-- The message synthesized for an unregistered tool name
(src/kimi-writer.py line 246). -/
def unknownToolMsg (name : String) : String :=
  "Error: Unknown tool " ++ squote ++ name ++ squote

/-- The fixed result returned when the model calls `compress_context`
(src/kimi-writer.py line 250). -/
def compressManagedMsg : String := "Context compression managed by system."

/-- The three tool implementations from tools/ (bound into the map by
src/utils.py `get_tool_map`).  Their bodies live outside the loop, so they
are parameters: each takes the argument mapping and returns a result
string (spec section 6: "handler(**named_args) -> string result"). -/
structure ToolImpls where
  create_project_impl : List (String × String) → String
  write_file_impl : List (String × String) → String
  compress_context_impl : List (String × String) → String

/-- src/utils.py `get_tool_map` (lines 98-111): maps the three registered
tool names to their implementations; every other name is absent. -/
def get_tool_map (impls : ToolImpls) : String → Option (List (String × String) → String) :=
  fun name =>
    if name = "create_project" then some impls.create_project_impl
    else if name = "write_file" then some impls.write_file_impl
    else if name = "compress_context" then some impls.compress_context_impl
    else none

/-- A function declaration advertised to the model (name and required
parameters only, from src/utils.py `get_tool_definitions`). -/
structure FunctionDeclaration where
  name : String
  required : List String
deriving DecidableEq, Repr

/-- src/utils.py `get_tool_definitions` (lines 39-95): the declarations
advertised to the model each turn, in source order. -/
def get_tool_definitions : List FunctionDeclaration :=
  [⟨"create_project", ["project_name"]⟩,
   ⟨"write_file", ["filename", "content", "mode"]⟩,
   ⟨"compress_context", []⟩]

/-- Dispatch of one function call (src/kimi-writer.py lines 240-252):
unknown name yields the synthesized error string; `compress_context` is
short-circuited to the fixed message; otherwise the handler runs on the
arguments. -/
def dispatchCall (tool_map : String → Option (List (String × String) → String))
    (fc : FunctionCall) : String :=
  match tool_map fc.name with
  | none => unknownToolMsg fc.name
  | some f =>
    if fc.name = "compress_context" then compressManagedMsg
    else f fc.args

/-- The tool-result turn appended after dispatch (src/kimi-writer.py lines
238-269): one `Part.from_function_response` per call, in call order, under
role "user". -/
def toolResultTurn (tool_map : String → Option (List (String × String) → String))
    (fcs : List FunctionCall) : Content :=
  ⟨"user", fcs.map (fun fc => Part.functionResponse fc.name (dispatchCall tool_map fc))⟩

/-- Collecting `function_calls_list` from the model content parts
(src/kimi-writer.py lines 214-220). -/
def extractFunctionCalls (parts : List Part) : List FunctionCall :=
  parts.filterMap (fun p =>
    match p with
    | Part.functionCall n a => some ⟨n, a⟩
    | _ => none)

/-- Outcome of one loop iteration: continue with new contents, break on a
quit signal (src/kimi-writer.py line 279), or break on an exception from
the model call (src/kimi-writer.py lines 289-291). -/
inductive StepOutcome where
  | continued (contents : List Content)
  | quitByUser (contents : List Content)
  | fatalError (contents : List Content)
deriving DecidableEq, Repr

/-- Whether the iteration outcome ends the session (either break site). -/
def isTerminal : StepOutcome → Bool
  | StepOutcome.continued _ => false
  | StepOutcome.quitByUser _ => true
  | StepOutcome.fatalError _ => true

/-- The quit signals accepted at the pause point
(src/kimi-writer.py line 278). -/
def quitSignals : List String := ["q", "quit", "exit"]

/-- Python `str.strip()`: drop leading and trailing whitespace (embedded
over the character list so it evaluates inside the kernel). -/
def pyStrip (s : String) : String :=
  String.mk (((s.data.dropWhile Char.isWhitespace).reverse.dropWhile
    Char.isWhitespace).reverse)

/-- Python `str.lower()` on the ASCII range used by the quit signals. -/
def pyLower (s : String) : String :=
  String.mk (s.data.map Char.toLower)

/-- One "Call Model" block of the loop (src/kimi-writer.py lines 196-291).
`gen` is the outcome of `client.models.generate_content`: `Except.error`
when it raises, otherwise `some c` for the first candidate content (or
`none` when there are no candidates).  `userInput` is what `input()` would
return at the pause point.  The model content, when present, is appended
before dispatch; a nonempty call list produces the tool-result turn; an
empty one pauses for input, quitting on q/quit/exit (stripped,
lowercased) and otherwise appending the reply as a user turn. -/
def modelStep (tool_map : String → Option (List (String × String) → String))
    (gen : Except Unit (Option Content)) (userInput : String)
    (contents : List Content) : StepOutcome :=
  match gen with
  | Except.error _ => StepOutcome.fatalError contents
  | Except.ok mc =>
    let contents1 := match mc with
      | some c => contents ++ [c]
      | none => contents
    let fcs := match mc with
      | some c => extractFunctionCalls c.parts
      | none => []
    if fcs.isEmpty then
      let np := pyStrip userInput
      if pyLower np ∈ quitSignals then StepOutcome.quitByUser contents1
      else StepOutcome.continued (contents1 ++ [⟨"user", [Part.text np]⟩])
    else
      StepOutcome.continued (contents1 ++ [toolResultTurn tool_map fcs])

/-- A simple role/content message, as built for the compression call and
as returned inside `compressed_messages` (src/kimi-writer.py lines
154-181). -/
structure SimpleMessage where
  role : String
  content : String
deriving DecidableEq, Repr

/-- The dictionary returned by the compression call, as far as the caller
inspects it: whether the key "compressed_messages" is present and, if so,
its list (src/kimi-writer.py line 171). -/
structure CompressionDict where
  compressed_messages : Option (List SimpleMessage)
deriving DecidableEq, Repr

/-- Rebuilding `new_contents` from the compressed messages
(src/kimi-writer.py lines 172-181): system messages are skipped,
assistant/model roles map to "model", every other role to "user", and
messages with empty content are dropped. -/
def rebuildContents (msgs : List SimpleMessage) : List Content :=
  msgs.filterMap (fun m =>
    if m.role = "system" then none
    else if m.content = "" then none
    else some ⟨if m.role = "assistant" ∨ m.role = "model" then "model" else "user",
               [Part.text m.content]⟩)

/-- Banner printed before the compression call (src/kimi-writer.py line 153). -/
def compressingBanner : String := "Compressing context..."

/-- Banner printed after a successful compression (src/kimi-writer.py line 183). -/
def compressedBanner : String := "Context compressed."

/-- The token-management block (src/kimi-writer.py lines 147-187).
`primary` is the backend token count (as in `estimate_token_count`);
`compressResult` is the outcome of `compress_context_impl` — `Except.error`
when that call raises.  Returns the resulting contents, the output printed
before the compression call returns, and the output printed after it.  The
whole block sits in `try/except Exception: pass`, whose handler prints
nothing (the warning print at line 186 is commented out), so a raising
compression call leaves the contents unchanged and emits nothing after the
failure. -/
def tokenManagement (primary : Option Nat) (compressResult : Except Unit CompressionDict)
    (contents : List Content) : List Content × List String × List String :=
  let tc := estimate_token_count primary contents
  if COMPRESSION_THRESHOLD ≤ tc then
    match compressResult with
    | Except.error _ => (contents, [compressingBanner], [])
    | Except.ok d =>
      match d.compressed_messages with
      | none => (contents, [compressingBanner], [])
      | some msgs => (rebuildContents msgs, [compressingBanner], [compressedBanner])
  else (contents, [], [])

/-- Per-iteration external inputs of the loop: the generate call outcome,
the user's reply at the pause point, the backend token count, and the
compression call outcome, each indexed by iteration number. -/
structure Oracle where
  gen : Nat → Except Unit (Option Content)
  input : Nat → String
  primaryTokens : Nat → Option Nat
  compress : Nat → Except Unit CompressionDict

/-- One full iteration of the main loop: token management followed by the
model call block (src/kimi-writer.py lines 143-291). -/
def loopBody (o : Oracle) (tool_map : String → Option (List (String × String) → String))
    (iter : Nat) (contents : List Content) : StepOutcome :=
  modelStep tool_map (o.gen iter) (o.input iter)
    (tokenManagement (o.primaryTokens iter) (o.compress iter) contents).1

/-- The `for iteration in range(1, MAX_ITERATIONS + 1)` loop, fuel being
the number of iterations still allowed.  Returns the number of iterations
executed and the final contents. -/
def runLoop (o : Oracle) (tool_map : String → Option (List (String × String) → String))
    (iter : Nat) : Nat → List Content → Nat → Nat × List Content
  | 0, contents, executed => (executed, contents)
  | fuel+1, contents, executed =>
    match loopBody o tool_map iter contents with
    | StepOutcome.continued c => runLoop o tool_map (iter+1) fuel c (executed+1)
    | StepOutcome.quitByUser c => (executed+1, c)
    | StepOutcome.fatalError c => (executed+1, c)

/-- A whole session: the loop from iteration 1 up to the cap. -/
def runSession (o : Oracle) (tool_map : String → Option (List (String × String) → String))
    (contents0 : List Content) : Nat × List Content :=
  runLoop o tool_map 1 MAX_ITERATIONS contents0 0

/-- Modelled from the spec: `compact` is `compress_context_impl` in
tools/compression.py, which is absent from src/ (only tools/__init__.py
and the callers are present).  Following spec section 4.3: "split
transcript into older = transcript[:-keep_recent] and tail =
transcript[-keep_recent:] (if transcript length <= keep_recent, compaction
is a no-op and returns the input unchanged — this must be checked before
invoking the summarization call)"; the summary text becomes a single
synthetic turn with role=user prepended to the tail; a failing
summarization call fails the compaction.  `summarize` is the dedicated
summarization request; the second component counts how many summarization
calls were issued. -/
def compact (summarize : List Content → Except Unit String)
    (transcript : List Content) (keep_recent : Nat) :
    Except Unit (List Content) × Nat :=
  if transcript.length ≤ keep_recent then (Except.ok transcript, 0)
  else
    let older := transcript.take (transcript.length - keep_recent)
    let tail := transcript.drop (transcript.length - keep_recent)
    match summarize older with
    | Except.error e => (Except.error e, 1)
    | Except.ok s => (Except.ok (⟨"user", [Part.text s]⟩ :: tail), 1)

/-- Modelled from the spec: the caller keeps the old transcript when
compaction fails (spec section 4.3 failure modes), so one compaction
attempt yields either the compacted transcript or the input unchanged. -/
def compactKeep (summarize : List Content → Except Unit String)
    (transcript : List Content) (keep_recent : Nat) : List Content :=
  match (compact summarize transcript keep_recent).1 with
  | Except.ok r => r
  | Except.error _ => transcript

/-- The most recent `k` turns of a transcript. -/
def lastTurns (k : Nat) (t : List Content) : List Content :=
  t.drop (t.length - k)

/-- Repeated compaction: `n` successive compaction attempts, each with its
own summarizer outcome. -/
def compactIter (summs : Nat → List Content → Except Unit String)
    (keep_recent : Nat) : Nat → List Content → List Content
  | 0, t => t
  | n+1, t => compactIter summs keep_recent n (compactKeep (summs n) t keep_recent)

/-- Example tool implementations used to instantiate witnesses. -/
def exImpls : ToolImpls :=
  ⟨fun _ => "Project created", fun _ => "File written", fun _ => "compressed"⟩

/-- A model content with three tool calls, for witnesses. -/
def exCallContent3 : Content :=
  ⟨"model", [Part.text "working",
             Part.functionCall "create_project" [("project_name", "ghosts")],
             Part.functionCall "write_file" [("filename", "story.md")],
             Part.functionCall "teleport" []]⟩

/-- A model content with a single `write_file` call, for witnesses. -/
def exWriteCallContent : Content :=
  ⟨"model", [Part.functionCall "write_file" [("filename", "story.md")]]⟩

/-- A model content with a single call to an unregistered tool. -/
def exTeleportContent : Content :=
  ⟨"model", [Part.functionCall "teleport" [("destination", "mars")]]⟩

/-- A model content with a single `compress_context` call. -/
def exCompressCallContent : Content :=
  ⟨"model", [Part.functionCall "compress_context" []]⟩

/-- A model content with no tool calls. -/
def exNoCallContent : Content := ⟨"model", [Part.text "The story is finished."]⟩

/-- A plain user turn, used as concrete transcript material. -/
def exUserTurn : Content := ⟨"user", [Part.text "Write me a ghost story"]⟩

/-- A turn holding only a tool-result segment, whose characters the source
fallback does not count. -/
def cexToolResultContent : Content :=
  ⟨"user", [Part.functionResponse "write_file" "0123"]⟩

/-- A concrete three-turn transcript for compaction witnesses. -/
def exTranscript3 : List Content :=
  [exUserTurn, exNoCallContent, cexToolResultContent]

/-- A concrete summarizer family that always succeeds. -/
def exSumms : Nat → List Content → Except Unit String :=
  fun _ _ => Except.ok "summary"

/-- A constant oracle: the model always answers with text only, the user
always replies "more", token counts stay at 0, compression never runs. -/
def exOracle : Oracle :=
  ⟨fun _ => Except.ok (some exNoCallContent),
   fun _ => "more",
   fun _ => some 0,
   fun _ => Except.ok ⟨none⟩⟩

/-- Claim C1: for every model turn produced by the loop that contains one or
more ToolCall segments, the loop appends, before requesting the next model
turn, exactly one tool-result turn containing exactly one ToolResult segment
per ToolCall, in the same order and matched by call name; for zero calls no
tool-result turn is appended (the iteration either quits or appends a plain
user text turn).  The appended tool-result turn is literally the map of the
call list through dispatch, so counts, order and names all match. -/
theorem C1_tool_calls_answered
    (tool_map : String → Option (List (String × String) → String))
    (userInput : String) (contents : List Content) (c : Content) :
    (extractFunctionCalls c.parts ≠ [] →
      modelStep tool_map (Except.ok (some c)) userInput contents =
        StepOutcome.continued (contents ++ [c,
          ⟨"user", (extractFunctionCalls c.parts).map
            (fun fc => Part.functionResponse fc.name (dispatchCall tool_map fc))⟩])) ∧
    (extractFunctionCalls c.parts = [] →
      modelStep tool_map (Except.ok (some c)) userInput contents =
        StepOutcome.quitByUser (contents ++ [c]) ∨
      modelStep tool_map (Except.ok (some c)) userInput contents =
        StepOutcome.continued
          (contents ++ [c, ⟨"user", [Part.text (pyStrip userInput)]⟩])) := by
  constructor
  · intro h
    simp only [modelStep, toolResultTurn]
    rw [if_neg (by simpa [List.isEmpty_iff] using h)]
    simp
  · intro h
    simp only [modelStep, h, List.isEmpty_nil, if_true]
    by_cases hq : pyLower (pyStrip userInput) ∈ quitSignals
    · left; rw [if_pos hq]
    · right; rw [if_neg hq]; simp

/-- Witness for C1 at a model turn carrying three tool calls: the single
appended tool-result turn answers each call in order by name. -/
theorem C1_witness :
    modelStep (get_tool_map exImpls) (Except.ok (some exCallContent3)) "go" [] =
      StepOutcome.continued ([] ++ [exCallContent3,
        ⟨"user", (extractFunctionCalls exCallContent3.parts).map
          (fun fc => Part.functionResponse fc.name
            (dispatchCall (get_tool_map exImpls) fc))⟩]) :=
  (C1_tool_calls_answered (get_tool_map exImpls) "go" [] exCallContent3).1 (by decide)

/-- Per-turn character sums: the source fallback counts exactly the Text
segments. -/
theorem partChars_eq_filterMap (parts : List Part) :
    (parts.map partTextChars).sum = (parts.filterMap textCharsOf).sum := by
  induction parts with
  | nil => rfl
  | cons p ps ih => cases p <;> simp [partTextChars, textCharsOf, ih]

/-- The source fallback character count, reshaped as a sum over the Text
segments of the flattened transcript. -/
theorem fallbackCharCount_eq_join (contents : List Content) :
    fallbackCharCount contents =
      ((contents.map Content.parts).flatten.filterMap textCharsOf).sum := by
  induction contents with
  | nil => rfl
  | cons c cs ih =>
    simp only [fallbackCharCount, List.map_cons, List.sum_cons, List.flatten_cons,
      List.filterMap_append, List.sum_append, partChars_eq_filterMap] at ih ⊢
    rw [ih]

/-- Claim C2 counterexample: a transcript holding a single ToolResult
segment of four characters.  The claim says the fallback returns
(4 / 4) = 1 (ToolResult characters counted); the code returns 0, because
the fallback in src/utils.py lines 30-34 only counts parts with truthy
`.text`, and a function-response part has no text. -/
theorem C2_counterexample :
    ¬ (estimate_token_count none [cexToolResultContent] =
        estimateSpecFallback [cexToolResultContent]) := by decide

/-- Claim C2 (amended): when the primary token-counting call fails,
`estimate_token_count` returns the sum of the character lengths of the Text
segments only, divided by 4 rounding down; ToolResult segments contribute
nothing (appending a turn holding only a ToolResult segment leaves the
estimate unchanged). -/
theorem C2_amended_fallback (contents : List Content) (role name result : String) :
    estimate_token_count none contents =
      ((contents.map Content.parts).flatten.filterMap textCharsOf).sum / 4 ∧
    estimate_token_count none
        (contents ++ [⟨role, [Part.functionResponse name result]⟩]) =
      estimate_token_count none contents := by
  constructor
  · simp only [estimate_token_count, fallbackCharCount_eq_join]
  · simp [estimate_token_count, fallbackCharCount, partTextChars]

/-- Claim C3 (spec-modelled): a transcript no longer than `keep_recent` is
returned unchanged by `compact`, and no summarization model call is
issued. -/
theorem C3_compact_noop (summarize : List Content → Except Unit String)
    (transcript : List Content) (keep_recent : Nat)
    (h : transcript.length ≤ keep_recent) :
    compact summarize transcript keep_recent = (Except.ok transcript, 0) := by
  simp [compact, h]

/-- Witness for C3: a three-turn transcript with keep_recent = 10. -/
theorem C3_witness :
    compact (exSumms 0) exTranscript3 10 = (Except.ok exTranscript3, 0) :=
  C3_compact_noop (exSumms 0) exTranscript3 10 (by decide)

/-- One compaction attempt never disturbs the most recent `k` turns:
either the transcript is short (no-op), the summarization failed (kept
unchanged), or the result is the summary turn prepended to exactly the
last `k` turns. -/
theorem lastTurns_compactKeep (s : List Content → Except Unit String)
    (t : List Content) (k : Nat) :
    lastTurns k (compactKeep s t k) = lastTurns k t := by
  unfold compactKeep compact
  by_cases h : t.length ≤ k
  · simp [h]
  · have hk : k ≤ t.length := Nat.le_of_lt (Nat.lt_of_not_le h)
    have hlen : (t.drop (t.length - k)).length = k := by
      rw [List.length_drop]
      exact Nat.sub_sub_self hk
    simp only [h, if_false]
    cases hs : s (t.take (t.length - k)) with
    | error e => simp
    | ok str =>
      simp only [lastTurns, List.length_cons, hlen]
      rw [Nat.succ_sub (Nat.le_refl k), Nat.sub_self]
      rfl

/-- Iterated compaction never disturbs the most recent `k` turns. -/
theorem lastTurns_compactIter (summs : Nat → List Content → Except Unit String)
    (k n : Nat) (t : List Content) :
    lastTurns k (compactIter summs k n t) = lastTurns k t := by
  induction n generalizing t with
  | zero => rfl
  | succ n ih =>
    rw [compactIter, ih, lastTurns_compactKeep]

/-- Claim C4 (spec-modelled): for a transcript longer than `keep_recent`,
the most recent `keep_recent` turns are preserved byte-for-byte (equality
of turns, roles and segments included) by one compaction attempt, and by
any number of repeated compaction attempts. -/
theorem C4_tail_preserved (keep_recent : Nat) (transcript : List Content)
    (h : keep_recent < transcript.length) :
    (∀ s, lastTurns keep_recent (compactKeep s transcript keep_recent) =
        lastTurns keep_recent transcript) ∧
    (∀ (summs : Nat → List Content → Except Unit String) (n : Nat),
        lastTurns keep_recent (compactIter summs keep_recent n transcript) =
          lastTurns keep_recent transcript) :=
  ⟨fun s => lastTurns_compactKeep s transcript keep_recent,
   fun summs n => lastTurns_compactIter summs keep_recent n transcript⟩

/-- Witness for C4: a three-turn transcript, keep_recent = 1, two
compactions. -/
theorem C4_witness :
    lastTurns 1 (compactIter exSumms 1 2 exTranscript3) = lastTurns 1 exTranscript3 :=
  (C4_tail_preserved 1 exTranscript3 (by decide)).2 exSumms 2

/-- Claim C5 counterexample: transcript of one user turn, backend token
count 900000 (at the compression threshold), compression call raising.
The claim requires a warning to be emitted in response to the failure; the
code's `except Exception: pass` handler (src/kimi-writer.py lines 185-187,
warning print commented out) emits nothing after the failing call, so the
post-failure output is empty and the claim is false here (the transcript
IS kept unchanged and the loop DOES continue; only the warning conjunct
fails). -/
theorem C5_counterexample :
    ¬ ((tokenManagement (some 900000) (Except.error ()) [exUserTurn]).2.2 ≠ []) := by
  decide

/-- Claim C5 (amended): whenever the summarization call made during
compaction raises, the loop keeps the transcript exactly as it was before
compaction was attempted, emits nothing after the failure (the exception
handler is silent: its warning print is commented out), and the iteration
proceeds to the model call on the unchanged transcript rather than
terminating the session. -/
theorem C5_amended_silent_fallback (primary : Option Nat) (contents : List Content)
    (h : COMPRESSION_THRESHOLD ≤ estimate_token_count primary contents) :
    (tokenManagement primary (Except.error ()) contents).1 = contents ∧
    (tokenManagement primary (Except.error ()) contents).2.2 = [] ∧
    ∀ (tool_map : String → Option (List (String × String) → String))
      (gen : Except Unit (Option Content)) (inp : String),
      modelStep tool_map gen inp (tokenManagement primary (Except.error ()) contents).1 =
        modelStep tool_map gen inp contents := by
  have hb : tokenManagement primary (Except.error ()) contents =
      (contents, [compressingBanner], []) := by
    simp [tokenManagement, h]
  exact ⟨by rw [hb], by rw [hb], fun tool_map gen inp => by rw [hb]⟩

/-- Witness for C5 (amended): one user turn, backend count 950000. -/
theorem C5_witness :
    (tokenManagement (some 950000) (Except.error ()) [exUserTurn]).1 = [exUserTurn] :=
  (C5_amended_silent_fallback (some 950000) [exUserTurn] (by decide)).1

/-- Claim C6: a model-issued call to a name outside the tool registry is
answered by a synthesized ToolResult whose string is
"Error: Unknown tool '<name>'" — its characters literally begin with
"Error: Unknown tool" — appended like any other tool result in the
tool-result turn, and the iteration continues (a `continued` outcome, so
the loop proceeds to the next model call) rather than terminating. -/
theorem C6_unknown_tool (impls : ToolImpls) (fc : FunctionCall)
    (h : get_tool_map impls fc.name = none) :
    dispatchCall (get_tool_map impls) fc = unknownToolMsg fc.name ∧
    (unknownToolMsg fc.name).data =
      "Error: Unknown tool".data ++ (" " ++ squote ++ fc.name ++ squote).data ∧
    ∀ (userInput : String) (contents : List Content) (c : Content),
      extractFunctionCalls c.parts = [fc] →
      modelStep (get_tool_map impls) (Except.ok (some c)) userInput contents =
        StepOutcome.continued (contents ++ [c,
          ⟨"user", [Part.functionResponse fc.name (unknownToolMsg fc.name)]⟩]) := by
  refine ⟨by simp [dispatchCall, h], ?_, ?_⟩
  · simp only [unknownToolMsg, String.data_append]
    rw [← List.append_assoc, ← List.append_assoc]
    congr 2
  · intro userInput contents c hc
    simp only [modelStep, hc, toolResultTurn, List.map_cons, List.map_nil,
      dispatchCall, h]
    rw [if_neg (by simp)]
    simp

/-- Witness for C6 at the unregistered name "teleport". -/
theorem C6_witness :
    modelStep (get_tool_map exImpls) (Except.ok (some exTeleportContent)) "go" [exUserTurn] =
      StepOutcome.continued ([exUserTurn] ++ [exTeleportContent,
        ⟨"user", [Part.functionResponse "teleport"
          (unknownToolMsg "teleport")]⟩]) :=
  (C6_unknown_tool exImpls ⟨"teleport", [("destination", "mars")]⟩ rfl).2.2
    "go" [exUserTurn] exTeleportContent (by decide)

/-- Claim C7: a registered handler fails only by returning a descriptive
error string (spec section 6 handler contract; handlers are embedded as
total string-returning functions accordingly).  Whatever string a handler
returns — success or error-shaped, e.g. for a single bad tool argument —
is taken verbatim as the ToolResult payload, the dispatch iteration ends
in a `continued` outcome carrying the tool-result turn (handled locally,
reported back to the model), and a fatal termination of an iteration
happens only when the backend generate call itself raises. -/
theorem C7_handler_errors_nonfatal
    (tool_map : String → Option (List (String × String) → String))
    (f : List (String × String) → String) (fc : FunctionCall)
    (hf : tool_map fc.name = some f) (hn : fc.name ≠ "compress_context") :
    dispatchCall tool_map fc = f fc.args ∧
    (∀ (userInput : String) (contents : List Content) (c : Content),
      extractFunctionCalls c.parts ≠ [] →
      modelStep tool_map (Except.ok (some c)) userInput contents =
        StepOutcome.continued (contents ++ [c,
          toolResultTurn tool_map (extractFunctionCalls c.parts)])) ∧
    (∀ (gen : Except Unit (Option Content)) (userInput : String)
       (contents cs : List Content),
      modelStep tool_map gen userInput contents = StepOutcome.fatalError cs →
      gen = Except.error ()) := by
  refine ⟨by simp [dispatchCall, hf, hn], ?_, ?_⟩
  · intro userInput contents c hc
    simp only [modelStep]
    rw [if_neg (by simpa [List.isEmpty_iff] using hc)]
    simp
  · intro gen userInput contents cs hstep
    cases gen with
    | error e => rfl
    | ok mc =>
      exfalso
      simp only [modelStep] at hstep
      by_cases he : (match mc with
          | some c => extractFunctionCalls c.parts
          | none => []).isEmpty
      · rw [if_pos he] at hstep
        by_cases hq : pyLower (pyStrip userInput) ∈ quitSignals
        · rw [if_pos hq] at hstep
          exact StepOutcome.noConfusion hstep
        · rw [if_neg hq] at hstep
          exact StepOutcome.noConfusion hstep
      · rw [if_neg he] at hstep
        exact StepOutcome.noConfusion hstep

/-- Witness for C7: a `write_file` call whose handler result string is
taken verbatim as the ToolResult payload. -/
theorem C7_witness :
    dispatchCall (get_tool_map exImpls) ⟨"write_file", [("filename", "story.md")]⟩ =
      exImpls.write_file_impl [("filename", "story.md")] :=
  (C7_handler_errors_nonfatal (get_tool_map exImpls) exImpls.write_file_impl
    ⟨"write_file", [("filename", "story.md")]⟩ rfl (by decide)).1

/-- Claim C8 counterexample: a model turn with zero tool calls and an empty
user reply.  The claim says empty input terminates the session; the code
(src/kimi-writer.py lines 277-284) only breaks on q/quit/exit, so the empty
reply is appended as an (empty) user turn and the loop continues. -/
theorem C8_counterexample :
    modelStep (get_tool_map exImpls) (Except.ok (some exNoCallContent)) "" [] =
      StepOutcome.continued [exNoCallContent, ⟨"user", [Part.text ""]⟩] ∧
    isTerminal (modelStep (get_tool_map exImpls)
      (Except.ok (some exNoCallContent)) "" []) = false := by
  constructor <;> decide

/-- Claim C8 (amended): whenever a model turn contains zero tool calls, the
loop pauses and blocks for external input; if the stripped, lowercased
input is a quit signal (q/quit/exit) the session terminates, and any other
input — the empty string included — is appended as a new user turn after
which the loop continues running. -/
theorem C8_pause_for_input
    (tool_map : String → Option (List (String × String) → String))
    (contents : List Content) (c : Content) (inp : String)
    (h : extractFunctionCalls c.parts = []) :
    (pyLower (pyStrip inp) ∈ quitSignals →
      modelStep tool_map (Except.ok (some c)) inp contents =
        StepOutcome.quitByUser (contents ++ [c])) ∧
    (pyLower (pyStrip inp) ∉ quitSignals →
      modelStep tool_map (Except.ok (some c)) inp contents =
        StepOutcome.continued
          (contents ++ [c, ⟨"user", [Part.text (pyStrip inp)]⟩])) := by
  constructor
  · intro hq
    simp only [modelStep, h, List.isEmpty_nil, if_true]
    rw [if_pos hq]
  · intro hq
    simp only [modelStep, h, List.isEmpty_nil, if_true]
    rw [if_neg hq]
    simp

/-- Witness for C8 (amended): the reply " Q " (stripped and lowercased to
"q") terminates the session. -/
theorem C8_witness :
    modelStep (get_tool_map exImpls) (Except.ok (some exNoCallContent)) " Q " [exUserTurn] =
      StepOutcome.quitByUser ([exUserTurn] ++ [exNoCallContent]) :=
  (C8_pause_for_input (get_tool_map exImpls) [exUserTurn] exNoCallContent " Q "
    (by decide)).1 (by decide)

/-- Every run of the loop executes at most `fuel` further iterations. -/
theorem runLoop_le (o : Oracle)
    (tool_map : String → Option (List (String × String) → String)) :
    ∀ (fuel iter : Nat) (contents : List Content) (executed : Nat),
      (runLoop o tool_map iter fuel contents executed).1 ≤ executed + fuel := by
  intro fuel
  induction fuel with
  | zero => intro iter contents executed; simp [runLoop]
  | succ n ih =>
    intro iter contents executed
    rw [runLoop]
    cases loopBody o tool_map iter contents with
    | continued c =>
      calc (runLoop o tool_map (iter+1) n c (executed+1)).1
          ≤ (executed+1) + n := ih (iter+1) c (executed+1)
        _ = executed + (n+1) := by omega
    | quitByUser c => exact show executed + 1 ≤ executed + (n+1) by omega
    | fatalError c => exact show executed + 1 ≤ executed + (n+1) by omega

/-- A model that always answers without tool calls together with a
never-quitting input source makes every iteration continue. -/
theorem runLoop_exact (o : Oracle)
    (tool_map : String → Option (List (String × String) → String))
    (hgen : ∀ i, ∃ mc, o.gen i = Except.ok mc ∧
        ∀ c, mc = some c → extractFunctionCalls c.parts = [])
    (hinp : ∀ i, pyLower (pyStrip (o.input i)) ∉ quitSignals) :
    ∀ (fuel iter : Nat) (contents : List Content) (executed : Nat),
      (runLoop o tool_map iter fuel contents executed).1 = executed + fuel := by
  intro fuel
  induction fuel with
  | zero => intro iter contents executed; simp [runLoop]
  | succ n ih =>
    intro iter contents executed
    rw [runLoop]
    obtain ⟨mc, hg, hmc⟩ := hgen iter
    have hbody : ∃ cs, loopBody o tool_map iter contents = StepOutcome.continued cs := by
      unfold loopBody
      rw [hg]
      simp only [modelStep]
      have hfcs : (match mc with
          | some c => extractFunctionCalls c.parts
          | none => []) = [] := by
        cases mc with
        | none => rfl
        | some c => exact hmc c rfl
      rw [if_pos (by simp [hfcs])]
      rw [if_neg (hinp iter)]
      exact ⟨_, rfl⟩
    obtain ⟨cs, hb⟩ := hbody
    rw [hb]
    calc (runLoop o tool_map (iter+1) n cs (executed+1)).1
        = (executed+1) + n := ih (iter+1) cs (executed+1)
      _ = executed + (n+1) := by omega

/-- Claim C9: with an iteration cap of N, a model that always returns zero
tool calls, and an input source that always supplies non-quit input, the
session executes exactly N iterations and then terminates — not before and
not after — and for every oracle whatsoever the cap bounds the number of
iterations (hitting the cap terminates regardless of state). -/
theorem C9_iteration_cap (o : Oracle)
    (tool_map : String → Option (List (String × String) → String))
    (N : Nat) (contents0 : List Content)
    (hgen : ∀ i, ∃ mc, o.gen i = Except.ok mc ∧
        ∀ c, mc = some c → extractFunctionCalls c.parts = [])
    (hinp : ∀ i, pyLower (pyStrip (o.input i)) ∉ quitSignals) :
    (runLoop o tool_map 1 N contents0 0).1 = N ∧
    ∀ (o₂ : Oracle) (c₂ : List Content), (runLoop o₂ tool_map 1 N c₂ 0).1 ≤ N := by
  constructor
  · have := runLoop_exact o tool_map hgen hinp N 1 contents0 0
    omega
  · intro o₂ c₂
    have := runLoop_le o₂ tool_map N 1 c₂ 0
    omega

/-- Witness for C9: iteration cap 3, constant text-only model, constant
"more" reply — exactly 3 iterations execute. -/
theorem C9_witness :
    (runLoop exOracle (get_tool_map exImpls) 1 3 [exUserTurn] 0).1 = 3 := by
  have h1 : ∀ i, ∃ mc, exOracle.gen i = Except.ok mc ∧
      ∀ c, mc = some c → extractFunctionCalls c.parts = [] := by
    intro i
    exact ⟨some exNoCallContent, rfl, fun c hc => by cases hc; decide⟩
  have h2 : ∀ i, pyLower (pyStrip (exOracle.input i)) ∉ quitSignals := by
    intro i
    show pyLower (pyStrip "more") ∉ quitSignals
    decide
  exact (C9_iteration_cap exOracle (get_tool_map exImpls) 3 [exUserTurn] h1 h2).1

/-- Claim C10: `compress_context` is registered in the tool map and
advertised among the tool declarations, yet dispatching a model-issued
call to it never invokes the compression implementation: the result is the
fixed string "Context compression managed by system." no matter what the
implementation is (the dispatch result is identical under any two
implementations), and the iteration merely appends the model turn and the
tool-result turn, leaving every existing transcript turn in place
(uncompressed by that call). -/
theorem C10_compress_context_stub (impls impls₂ : ToolImpls)
    (args : List (String × String)) (userInput : String) (contents : List Content) :
    get_tool_map impls "compress_context" = some impls.compress_context_impl ∧
    (get_tool_definitions.map FunctionDeclaration.name).contains "compress_context" = true ∧
    dispatchCall (get_tool_map impls) ⟨"compress_context", args⟩ = compressManagedMsg ∧
    dispatchCall (get_tool_map impls) ⟨"compress_context", args⟩ =
      dispatchCall (get_tool_map impls₂) ⟨"compress_context", args⟩ ∧
    ∀ (c : Content), extractFunctionCalls c.parts = [⟨"compress_context", args⟩] →
      modelStep (get_tool_map impls) (Except.ok (some c)) userInput contents =
        StepOutcome.continued (contents ++ [c,
          ⟨"user", [Part.functionResponse "compress_context" compressManagedMsg]⟩]) := by
  refine ⟨rfl, by decide, by simp [dispatchCall, get_tool_map],
    by simp [dispatchCall, get_tool_map], ?_⟩
  intro c hc
  simp only [modelStep, hc, toolResultTurn, List.map_cons, List.map_nil]
  rw [if_neg (by simp)]
  simp [dispatchCall, get_tool_map]

/-- Witness for C10: a concrete `compress_context` call is answered by the
fixed message and the step continues with only the two appended turns. -/
theorem C10_witness :
    modelStep (get_tool_map exImpls) (Except.ok (some exCompressCallContent)) "go" [exUserTurn] =
      StepOutcome.continued ([exUserTurn] ++ [exCompressCallContent,
        ⟨"user", [Part.functionResponse "compress_context" compressManagedMsg]⟩]) :=
  (C10_compress_context_stub exImpls exImpls [] "go" [exUserTurn]).2.2.2.2
    exCompressCallContent (by decide)

end GeminiWriter
